import Mathlib

/-
Verification development for the freshservice-category-cleanup repository.

The Python sources are shallowly embedded: pure computations become Lean
functions, mutable objects become explicit state records, wall-clock time is
threaded as a rational-number parameter, SQLite tables become lists of row
records, and Python exceptions become the error side of an Except value.
Console printing is dropped (it carries no semantic content); the data that
would be printed is kept where a claim depends on it.
-/

/-- Python exception values that the embedded code can raise. -/
inductive PyExc where
  | attributeError (attr : String)
  | typeError (msg : String)
  | valueError (msg : String)
  | freshserviceHTTPError (status : Nat)
  | freshserviceRateLimitError
deriving Repr, DecidableEq

/-- Python values appearing in JSON bodies and object attributes. -/
inductive PyVal where
  | nul
  | boolean (b : Bool)
  | int (n : Int)
  | str (s : String)
  | arr (xs : List PyVal)
  | dict (fields : List (String × PyVal))
  | clientRef
  | dateObj (iso : String)

/-- Python truthiness of an optional TEXT column value: None and the empty
string are falsy, any other string is truthy. -/
def pyTruthyStr : Option String → Bool
  | none => false
  | some s => !(s == "")

/-- Strip leading and trailing whitespace from a character list. -/
def charsTrim (cs : List Char) : List Char :=
  ((cs.dropWhile Char.isWhitespace).reverse.dropWhile Char.isWhitespace).reverse

/-- Decimal digits to a natural number, most significant first. -/
def digitsToNat : List Char → Nat → Nat
  | [], acc => acc
  | c :: cs, acc => digitsToNat cs (acc * 10 + (c.toNat - 48))

/-- Python int(s) on a string: optional surrounding whitespace, an optional
sign, then decimal digits; anything else raises ValueError (modelled as
none).  Digit-group underscores are not modelled; no claim exercises them. -/
def pyIntParse (s : String) : Option Int :=
  let cs := charsTrim s.data
  let signed : Bool × List Char :=
    match cs with
    | '+' :: rest => (false, rest)
    | '-' :: rest => (true, rest)
    | _ => (false, cs)
  if signed.2.length > 0 && signed.2.all Char.isDigit then
    some (if signed.1 then -(digitsToNat signed.2 0 : Int) else (digitsToNat signed.2 0 : Int))
  else none

/-- Exact-key lookup in a header or attribute association list
(dict.get(k) returning None when absent). -/
def headerGet (hs : List (String × String)) (k : String) : Option String :=
  (hs.find? (fun p => p.1 == k)).map (fun p => p.2)

/- ----------------------------------------------------------------------
RateLimitController (src/freshservice_api/rate_limit_controller.py)
---------------------------------------------------------------------- -/

/-- Mutable state of RateLimitController.  Timestamps are rationals (Python
floats from time.time(); ℚ keeps the arithmetic exact — note that where
Python would raise ZeroDivisionError on 60.0 / 0, rational division yields 0;
theorems that involve the division hypothesise a positive total). -/
structure ControllerState where
  headroom : Int
  server_ratelimit_remaining : Int
  server_ratelimit_total : Int
  requests_in_flight : Int
  last_request_timestamp : ℚ
  retry_after_timestamp : ℚ
  probe_wait_seconds : ℚ
  probe_scheduled : Bool
deriving Repr, DecidableEq

/-- RateLimitController.__init__(headroom). -/
def initController (headroom : Int) : ControllerState :=
  { headroom := headroom
    server_ratelimit_remaining := 160
    server_ratelimit_total := 160
    requests_in_flight := 0
    last_request_timestamp := 0
    retry_after_timestamp := 0
    probe_wait_seconds := 1
    probe_scheduled := false }

/-- Which condition-variable notification update_and_notify issues. -/
inductive NotifyAction where
  | all
  | one
deriving Repr, DecidableEq

/-- The standard (non-Retry-After) tail of update_and_notify: ingest the
x-ratelimit-* headers — int() on their values is NOT guarded by a try, so an
unparseable value raises ValueError — then pick the wake policy. -/
def ingestRatelimitHeaders (st : ControllerState) (headers : List (String × String)) :
    Except PyExc (ControllerState × NotifyAction) :=
  let prev := st.server_ratelimit_remaining
  match headerGet headers "x-ratelimit-remaining" with
  | some r =>
    match pyIntParse r with
    | none => .error (.valueError "invalid literal for int")
    | some v => ingestTotal { st with server_ratelimit_remaining := v } prev headers
  | none => ingestTotal st prev headers
where
  /-- Second half: x-ratelimit-total, then the notify decision. -/
  ingestTotal (st : ControllerState) (prev : Int) (headers : List (String × String)) :
      Except PyExc (ControllerState × NotifyAction) :=
    match headerGet headers "x-ratelimit-total" with
    | some t =>
      match pyIntParse t with
      | none => .error (.valueError "invalid literal for int")
      | some v => .ok (notifyDecision { st with server_ratelimit_total := v } prev)
    | none => .ok (notifyDecision st prev)
  /-- Wake policy: quota refreshed → notify_all; effective remaining above
  headroom → notify_all; otherwise notify one (probe semantics). -/
  notifyDecision (st : ControllerState) (prev : Int) : ControllerState × NotifyAction :=
    let effective := st.server_ratelimit_remaining - st.requests_in_flight
    if prev < st.server_ratelimit_remaining then (st, .all)
    else if st.headroom < effective then (st, .all)
    else (st, .one)

/-- RateLimitController.update_and_notify(headers): decrement the in-flight
counter (floored at 0); a present and int()-parseable Retry-After header arms
the global pause, zeroes the remaining quota and wakes everyone; a malformed
Retry-After falls through to the standard header ingestion. -/
def update_and_notify (st : ControllerState) (now : ℚ) (headers : List (String × String)) :
    Except PyExc (ControllerState × NotifyAction) :=
  let f := st.requests_in_flight - 1
  let st := { st with requests_in_flight := if f < 0 then 0 else f }
  match headerGet headers "Retry-After" with
  | some ra =>
    match pyIntParse ra with
    | some secs =>
      .ok ({ st with retry_after_timestamp := now + (secs : ℚ),
                     server_ratelimit_remaining := 0 }, .all)
    | none => ingestRatelimitHeaders st headers
  | none => ingestRatelimitHeaders st headers

/-- Outcome of one pass through the block_until_ready while-loop body. -/
inductive AdmissionStep where
  | admitted (st : ControllerState)
  | waitTimeout (secs : ℚ) (st : ControllerState)
  | waitForever (st : ControllerState)
  | probeWait (st : ControllerState)
deriving Repr, DecidableEq

/-- One iteration of RateLimitController.block_until_ready, entered at time
now.  admitted means the function returns to the caller; waitTimeout / waitForever
mean the thread waits on the condition variable and loops; probeWait means the
thread set probe_scheduled and waits probe_wait_seconds, after which
blockProbeResume runs on the then-current state. -/
def blockStep (st : ControllerState) (now : ℚ) : AdmissionStep :=
  if now < st.retry_after_timestamp then
    .waitTimeout (st.retry_after_timestamp - now) st
  else
    let base : ℚ := 60 / (st.server_ratelimit_total : ℚ)
    let rem : Int := st.server_ratelimit_remaining - st.requests_in_flight
    if st.headroom < rem then
      let st1 := { st with probe_wait_seconds := max 1 base }
      let braking : Int := st.headroom * 3
      let mult : ℚ := if braking < rem then 1 else (braking : ℚ) / ((max 1 rem : Int) : ℚ)
      let required : ℚ := base * mult
      let since : ℚ := now - st1.last_request_timestamp
      if since < required then .waitTimeout (required - since) st1
      else .admitted { st1 with requests_in_flight := st1.requests_in_flight + 1,
                                last_request_timestamp := now }
    else
      if 0 < st.requests_in_flight || st.probe_scheduled then .waitForever st
      else .probeWait { st with probe_scheduled := true }

/-- Continuation after the probe wait of block_until_ready: probe_scheduled is
cleared (the finally block), the remaining quota is re-checked against the
headroom at the new time, and either this thread is admitted as the single
probe (doubling the backoff, capped at 60) or the loop restarts. -/
def blockProbeResume (st : ControllerState) (now : ℚ) : AdmissionStep :=
  let st := { st with probe_scheduled := false }
  if st.server_ratelimit_remaining - st.requests_in_flight ≤ st.headroom then
    .admitted { st with probe_wait_seconds := min (st.probe_wait_seconds * 2) 60,
                        requests_in_flight := st.requests_in_flight + 1,
                        last_request_timestamp := now }
  else .waitTimeout 0 st

/- ----------------------------------------------------------------------
FreshserviceApi (src/freshservice_api/freshservice_api.py)
---------------------------------------------------------------------- -/

/-- Attributes assigned by FreshserviceApi.__init__ — and only these; in
particular no controller attribute is ever bound on the client. -/
def fsApiInitAttrNames : List String :=
  ["api_key", "api_version", "base_url", "session",
   "rate_limit_total", "rate_limit_remaining", "rate_limit_hit", "retry_after_until"]

/-- Mutable rate-limit bookkeeping fields of a FreshserviceApi instance. -/
structure FsApiState where
  rate_limit_total : Option Int
  rate_limit_remaining : Option Int
  rate_limit_hit : Bool
  retry_after_until : Option ℚ
deriving Repr, DecidableEq

/-- FreshserviceApi.__init__ leaves all rate-limit fields unset. -/
def fsApiInit : FsApiState :=
  { rate_limit_total := none, rate_limit_remaining := none,
    rate_limit_hit := false, retry_after_until := none }

/-- An HTTP response as _request observes it: status, headers, the result of
.json() (none when the body is not valid JSON, in which case .json() raises
ValueError), and .text. -/
structure HttpResp where
  status_code : Nat
  headers : List (String × String)
  jsonBody : Option PyVal
  textBody : String

/-- Externally visible events of one _request invocation.  admission and
ingest stand for calls to RateLimitController.block_until_ready and
update_and_notify respectively; the embedded _request never emits them because
the source never makes those calls. -/
inductive ClientEvent where
  | admission
  | ingest
  | httpSend (idx : Nat)
  | sleepUntil (t : ℚ)
deriving Repr, DecidableEq

/-- The header bookkeeping lines of _request:
int(response.headers.get(name, 0)) or previous.  A missing header yields
int(0) = 0, which is falsy, so the previous value is kept; a malformed header
value makes int() raise ValueError; a parsed 0 likewise keeps the previous
value through the or. -/
def headerUpdateVal (hdr : Option String) (old : Option Int) : Except PyExc (Option Int) :=
  match hdr with
  | none => .ok old
  | some s =>
    match pyIntParse s with
    | none => .error (.valueError "invalid literal for int")
    | some v => .ok (if v == 0 then old else some v)

/-- The while-loop of FreshserviceApi._request.  fuel is the number of
attempts the 429 budget still allows (max_retries + 1 - attempts): the Python
loop condition attempts <= max_retries is fuel ≥ 1, and only the 429 branch
increments attempts.  sendIdx numbers the requests so that the response oracle
can answer each one; clock is the current wall time.  Returns the emitted
events, the final client state and either the decoded JSON body (an empty dict
for 204) or the raised exception. -/
def requestLoop (responses : Nat → HttpResp) (maxRetries : Nat) :
    Nat → Nat → FsApiState → ℚ → List ClientEvent × FsApiState × Except PyExc PyVal
  | 0, _, st, _ => ([], st, .error .freshserviceRateLimitError)
  | fuel + 1, sendIdx, st, clock =>
    -- If we know we are currently rate limited, wait before even trying,
    -- then reset the flag and the absolute retry time.
    let pre : List ClientEvent × FsApiState × ℚ :=
      match st.rate_limit_hit, st.retry_after_until with
      | true, some t =>
        if clock < t then
          ([ClientEvent.sleepUntil t],
           { st with rate_limit_hit := false, retry_after_until := none }, t)
        else ([], { st with rate_limit_hit := false, retry_after_until := none }, clock)
      | _, _ => ([], st, clock)
    let preEvents := pre.1
    let st1 := pre.2.1
    let clock1 := pre.2.2
    let resp := responses sendIdx
    let tail : List ClientEvent × FsApiState × Except PyExc PyVal :=
      match headerUpdateVal (headerGet resp.headers "x-ratelimit-total") st1.rate_limit_total with
      | .error e => ([], st1, .error e)
      | .ok tot =>
        match headerUpdateVal (headerGet resp.headers "x-ratelimit-remaining")
            st1.rate_limit_remaining with
        | .error e => ([], { st1 with rate_limit_total := tot }, .error e)
        | .ok rem =>
          let st2 := { st1 with rate_limit_total := tot, rate_limit_remaining := rem }
          if resp.status_code == 429 then
            -- attempts += 1; break (and raise) once attempts > max_retries
            if fuel == 0 then ([], st2, .error .freshserviceRateLimitError)
            else
              -- wait_time = int(retry_header) if retry_header else 2 ** attempts;
              -- an empty header string is falsy and also falls back to 2 ** attempts
              let waitTime : Except PyExc ℚ :=
                match headerGet resp.headers "Retry-After" with
                | some s =>
                  if s == "" then .ok ((2 : ℚ) ^ (maxRetries + 1 - fuel))
                  else
                    match pyIntParse s with
                    | some n => .ok (n : ℚ)
                    | none => .error (.valueError "invalid literal for int")
                | none => .ok ((2 : ℚ) ^ (maxRetries + 1 - fuel))
              match waitTime with
              | .error e => ([], st2, .error e)
              | .ok w =>
                requestLoop responses maxRetries fuel (sendIdx + 1)
                  { st2 with rate_limit_hit := true, retry_after_until := some (clock1 + w) }
                  clock1
          else if 400 ≤ resp.status_code then
            -- raise_for_status → FreshserviceHTTPError wrapping status and body
            ([], st2, .error (.freshserviceHTTPError resp.status_code))
          else if resp.status_code == 204 then ([], st2, .ok (.dict []))
          else
            match resp.jsonBody with
            | some j => ([], st2, .ok j)
            | none => ([], st2, .error (.valueError "response body is not valid JSON"))
    (preEvents ++ ClientEvent.httpSend sendIdx :: tail.1, tail.2.1, tail.2.2)

/-- FreshserviceApi._request(method, path, max_retries).  The method, path and
request body do not influence the embedded control flow (the response oracle
abstracts the server); attempts starts at 0, so the budget is
max_retries + 1. -/
def fsRequest (responses : Nat → HttpResp) (maxRetries : Nat)
    (_method _path : String) (st : FsApiState) (clock : ℚ) :
    List ClientEvent × FsApiState × Except PyExc PyVal :=
  requestLoop responses maxRetries (maxRetries + 1) 0 st clock

/- ----------------------------------------------------------------------
Ticket (src/freshservice_api/ticket.py)
---------------------------------------------------------------------- -/

/-- Does the attribute association list bind the given name. -/
def hasKey (m : List (String × PyVal)) (k : String) : Bool :=
  m.any (fun p => p.1 == k)

/-- Attribute lookup (getattr returning none when unbound). -/
def alookup (m : List (String × PyVal)) (k : String) : Option PyVal :=
  (m.find? (fun p => p.1 == k)).map (fun p => p.2)

/-- setattr on an already-bound name: rebind it in place. -/
def aset (m : List (String × PyVal)) (k : String) (v : PyVal) : List (String × PyVal) :=
  m.map (fun p => if p.1 == k then (p.1, v) else p)

/-- The attributes Ticket.__init__ assigns on fs_api.ticket(), i.e. on
Ticket(client) with no keyword arguments: every payload attribute is None and
the collection attributes get their empty defaults.  No status_code attribute
exists. -/
def ticketInitAttrs : List (String × PyVal) :=
  [("client", .clientRef), ("id", .nul),
   ("subject", .nul), ("description", .nul), ("description_text", .nul),
   ("status", .nul), ("priority", .nul), ("type", .nul), ("source", .nul),
   ("category", .nul), ("sub_category", .nul), ("item_category", .nul),
   ("created_at", .nul), ("updated_at", .nul), ("due_by", .nul), ("fr_due_by", .nul),
   ("group_id", .nul), ("department_id", .nul), ("requester_id", .nul),
   ("requested_for_id", .nul), ("responder_id", .nul), ("workspace_id", .nul),
   ("sla_policy_id", .nul), ("applied_business_hours", .nul),
   ("fr_escalated", .nul), ("is_escalated", .nul), ("deleted", .nul), ("spam", .nul),
   ("created_within_business_hours", .nul),
   ("fwd_emails", .arr []), ("reply_cc_emails", .arr []), ("cc_emails", .arr []),
   ("to_emails", .nul), ("bcc_emails", .nul),
   ("attachments", .arr []), ("custom_fields", .dict []),
   ("email_config_id", .nul), ("tasks_dependency_type", .nul),
   ("resolution_notes", .nul), ("resolution_notes_html", .nul)]

/-- The fields _hydrate routes through _parse_date. -/
def dateFields : List String := ["created_at", "updated_at", "due_by", "fr_due_by"]

/-- Ticket._parse_date: non-strings become None; strings go through
datetime.fromisoformat, which is abstracted by the parser parameter (it may
raise for malformed dates — theorems quantify over any parser). -/
def parseDateVal (parser : String → Except PyExc PyVal) : PyVal → Except PyExc PyVal
  | .str s => parser s
  | _ => .ok .nul

/-- The attribute-folding loop of Ticket._hydrate: for each key of the
response dict, set the attribute only when the ticket already has it, parsing
date fields through _parse_date. -/
def hydrateFields (parser : String → Except PyExc PyVal) :
    List (String × PyVal) → List (String × PyVal) → Except PyExc (List (String × PyVal))
  | attrs, [] => .ok attrs
  | attrs, (k, v) :: rest =>
    if hasKey attrs k then
      if k ∈ dateFields then
        match parseDateVal parser v with
        | .ok d => hydrateFields parser (aset attrs k d) rest
        | .error e => .error e
      else hydrateFields parser (aset attrs k v) rest
    else hydrateFields parser attrs rest

/-- Ticket._hydrate(data): unwrap a top-level ticket envelope when present,
then fold the dict into the existing attributes; non-dict data leaves the
ticket unchanged. -/
def ticketHydrate (parser : String → Except PyExc PyVal)
    (attrs : List (String × PyVal)) (data : PyVal) : Except PyExc (List (String × PyVal)) :=
  match data with
  | .dict fields =>
    let inner := match alookup fields "ticket" with
      | some v => v
      | none => .dict fields
    match inner with
    | .dict innerFields => hydrateFields parser attrs innerFields
    | _ => .ok attrs
  | _ => .ok attrs

/-- Python attribute read on a ticket object: AttributeError when unbound. -/
def getattrTicket (attrs : List (String × PyVal)) (name : String) : Except PyExc PyVal :=
  match alookup attrs name with
  | some v => .ok v
  | none => .error (.attributeError name)

/-- The Python call protocol for Ticket.update(self, payload=None): at most
one positional argument besides self may be bound; a second one raises
TypeError before the method body runs. -/
def bindUpdateArgs (args : List PyVal) : Except PyExc (Option PyVal) :=
  match args with
  | [] => .ok none
  | [p] => .ok (some p)
  | _ => .error (.typeError "update takes from 1 to 2 positional arguments")

/- ----------------------------------------------------------------------
SQLite tables (batch_ticket_category_updater.py and the importer variants)
---------------------------------------------------------------------- -/

/-- One row of the category updater's tickets table.  Each nullable column is
an Option; id is the INTEGER PRIMARY KEY, so rows of a well-formed table have
distinct ids and an UPDATE ... WHERE id = ? touches one row. -/
structure TicketRow where
  id : Int
  category : Option String
  sub_category : Option String
  item_category : Option String
  new_category : Option String
  new_sub_category : Option String
  new_item_category : Option String
  update_state : Option String
  request_timestamp : Option ℚ
  response_status_code : Option Int
  error_message : Option String
deriving Repr, DecidableEq

/-- One row of valid_categories (category is NOT NULL). -/
structure ValidCategoryRow where
  category : String
  sub_category : Option String
  item_category : Option String
deriving Repr, DecidableEq

/-- One row of category_mappings (old_category is NOT NULL). -/
structure CategoryMappingRow where
  old_category : String
  old_sub_category : Option String
  old_item_category : Option String
  new_category : Option String
  new_sub_category : Option String
  new_item_category : Option String
deriving Repr, DecidableEq

/-- The updater's database file: its three tables, each as a list of rows in
rowid order (LIMIT 1 without ORDER BY reads the first matching row). -/
structure UpdaterDb where
  tickets : List TicketRow
  valid_categories : List ValidCategoryRow
  category_mappings : List CategoryMappingRow
deriving Repr, DecidableEq

/-- One row of the ticket importer's tickets table
(src/ticket_importer.py and batch_ticket_importer.py share this schema). -/
structure ImporterRow where
  id : Int
  email : Option String
  subject : Option String
  description : Option String
  category : Option String
  sub_category : Option String
  item_category : Option String
  request_timestamp : Option ℚ
  response_ticket_id : Option Int
  response_status_code : Option Int
  error_message : Option String
deriving Repr, DecidableEq

/-- The importer's database file. -/
structure ImporterDb where
  tickets : List ImporterRow
deriving Repr, DecidableEq

/- ----------------------------------------------------------------------
BatchTicketCategoryUpdater (src/freshservice_api/batch_ticket_category_updater.py)
---------------------------------------------------------------------- -/

/-- validate_category(category, sub_category, item_category): a truthiness
cascade chooses which SELECT runs against valid_categories.  All three truthy:
exact equality on all three.  Category and sub_category truthy: equality on
those two and item_category IS NULL — a present item_category is never
consulted in this branch.  Only category truthy: sub_category and
item_category must be NULL.  Category falsy: no query, False.  SQL equality
against a NULL parameter never matches, which the Option equality mirrors. -/
def validateCategory (db : UpdaterDb) (c s i : Option String) : Bool :=
  if pyTruthyStr c && pyTruthyStr s && pyTruthyStr i then
    db.valid_categories.any (fun v =>
      (some v.category == c) && (v.sub_category == s) && (v.item_category == i))
  else if pyTruthyStr c && pyTruthyStr s then
    db.valid_categories.any (fun v =>
      (some v.category == c) && (v.sub_category == s) && (v.item_category == none))
  else if pyTruthyStr c then
    db.valid_categories.any (fun v =>
      (some v.category == c) && (v.sub_category == none) && (v.item_category == none))
  else false

/-- get_new_category(old_category, old_sub_category, old_item_category): the
analogous cascade over category_mappings, branching on the truthiness of the
sub and item components only (old_category is passed to SQL as-is, so a NULL
old_category matches nothing); fetchone of LIMIT 1 returns the first matching
row. -/
def getNewCategory (db : UpdaterDb) (c s i : Option String) : Option CategoryMappingRow :=
  if pyTruthyStr s && pyTruthyStr i then
    db.category_mappings.find? (fun m =>
      (some m.old_category == c) && (m.old_sub_category == s) && (m.old_item_category == i))
  else if pyTruthyStr s then
    db.category_mappings.find? (fun m =>
      (some m.old_category == c) && (m.old_sub_category == s) && (m.old_item_category == none))
  else
    db.category_mappings.find? (fun m =>
      (some m.old_category == c) && (m.old_sub_category == none) && (m.old_item_category == none))

/-- Is the ticket's category triple wholly NULL
(all(v is None for v in [...]) in prepare). -/
def tripleAllNull (t : TicketRow) : Bool :=
  (t.category == none) && (t.sub_category == none) && (t.item_category == none)

/-- The per-ticket body of prepare's loop: already-valid or wholly-NULL rows
become skipped; rows with a category_mappings match become ready and receive
the mapping's new_* values; the rest become unmapped. -/
def classifyTicket (db : UpdaterDb) (t : TicketRow) : TicketRow :=
  if validateCategory db t.category t.sub_category t.item_category || tripleAllNull t then
    { t with update_state := some "skipped" }
  else
    match getNewCategory db t.category t.sub_category t.item_category with
    | some m =>
      { t with update_state := some "ready",
               new_category := m.new_category,
               new_sub_category := m.new_sub_category,
               new_item_category := m.new_item_category }
    | none => { t with update_state := some "unmapped" }

/-- prepare(): classify exactly the tickets whose update_state IS NULL; the
lookups touch only the two auxiliary tables, so the per-row UPDATEs commute
and the pass is a map over the tickets table. -/
def prepare (db : UpdaterDb) : UpdaterDb :=
  { db with tickets := db.tickets.map (fun t =>
      if t.update_state == none then classifyTicket db t else t) }

/-- A failed ticket row after the updater's retry_failed UPDATE: state and the
three outcome columns are cleared, everything else is untouched. -/
def clearUpdaterRow (t : TicketRow) : TicketRow :=
  { t with update_state := none, request_timestamp := none,
           response_status_code := none, error_message := none }

/-- BatchTicketCategoryUpdater.retry_failed: one UPDATE over the rows WHERE
update_state = 'failed'; the reported quantity is the statement's rowcount,
i.e. the number of matched rows. -/
def retryFailedUpdater (db : UpdaterDb) : UpdaterDb × Nat :=
  ({ db with tickets := db.tickets.map (fun t =>
       if t.update_state == some "failed" then clearUpdaterRow t else t) },
   (db.tickets.filter (fun t => t.update_state == some "failed")).length)

/-- ORDER BY id DESC LIMIT 1: the matching row with the greatest id. -/
def maxByIdRow : List TicketRow → Option TicketRow
  | [] => none
  | t :: ts =>
    match maxByIdRow ts with
    | none => some t
    | some b => if b.id < t.id then some t else some b

/-- The binding of self.random_order on a freshly constructed processor:
BaseBatchProcessor.__init__ assigns fs_api, db_filename, iteration_count,
iteration_limit, success_count, failure_count, start_time, count_lock and
print_lock, and neither subclass assigns anything else, so the attribute is
unbound (none) and reading it raises AttributeError. -/
def processorRandomOrderAttr : Option Bool := none

/-- BatchTicketCategoryUpdater._fetch_and_lock_next_item.  The first statement
reads self.random_order (randomOrder here); when it is unbound the
AttributeError propagates — the except clause catches only
sqlite3.OperationalError.  Otherwise the ready row is chosen by id descending
(or by the pick oracle standing for ORDER BY RANDOM()), stamped in-progress
with request_timestamp = now, and the pre-update row is returned; no match
rolls back and returns None. -/
def fetchAndLockNextItemUpdater (randomOrder : Option Bool)
    (pick : List TicketRow → Option TicketRow) (now : ℚ) (db : UpdaterDb) :
    Except PyExc (Option TicketRow × UpdaterDb) :=
  match randomOrder with
  | none => .error (.attributeError "random_order")
  | some ro =>
    let ready := db.tickets.filter (fun t => t.update_state == some "ready")
    match (if ro then pick ready else maxByIdRow ready) with
    | none => .ok (none, db)
    | some row =>
      .ok (some row,
        { db with tickets := db.tickets.map (fun t =>
            if t.id == row.id then
              { t with update_state := some "in-progress", request_timestamp := some now }
            else t) })

/-- The fetch as the program actually runs it: random_order is unbound. -/
def updaterFetch (now : ℚ) (db : UpdaterDb) : Except PyExc (Option TicketRow × UpdaterDb) :=
  fetchAndLockNextItemUpdater processorRandomOrderAttr (fun _ => none) now db

/-- The request body _perform_api_action builds for a ticket row:
category is included unconditionally (even when NULL); sub_category and
item_category are included exactly when truthy. -/
def buildUpdatePayload (t : TicketRow) : List (String × Option String) :=
  ("category", t.new_category) ::
  ((if pyTruthyStr t.new_sub_category then [("sub_category", t.new_sub_category)] else []) ++
   (if pyTruthyStr t.new_item_category then [("item_category", t.new_item_category)] else []))

/-- Payload dict as Python values. -/
def payloadToPyVal (p : List (String × Option String)) : List (String × PyVal) :=
  p.map (fun kv => (kv.1, match kv.2 with | none => PyVal.nul | some s => PyVal.str s))

/-- The try-block body of _worker_loop under the updater strategy:
_perform_api_action builds the payload and then evaluates
self.fs_api.ticket().update(ticket_row['id'], ticket_update_payload) — two
positional arguments against update(self, payload=None), so binding raises
TypeError before any HTTP request; no events are emitted.  (Were the binding
to succeed, fs_api.ticket() has id None and update would raise
ValueError("Cannot update an unsaved ticket") — that arm is kept for
totality.)  The result is the outcome of the whole try block: ok would mean
the success branch (status read, _handle_success, success counter) ran. -/
def updaterTryBlock (row : TicketRow) : List ClientEvent × Except PyExc Unit :=
  let payload := buildUpdatePayload row
  match bindUpdateArgs [PyVal.int row.id, PyVal.dict (payloadToPyVal payload)] with
  | .error e => ([], .error e)
  | .ok _ => ([], .error (.valueError "Cannot update an unsaved ticket."))

/-- _handle_failure of the updater: mark the row failed with the extracted
status and message. -/
def updaterHandleFailure (db : UpdaterDb) (rowId : Int)
    (status : Option Int) (msg : String) : UpdaterDb :=
  { db with tickets := db.tickets.map (fun t =>
      if t.id == rowId then
        { t with update_state := some "failed", response_status_code := status,
                 error_message := some msg }
      else t) }

/- ----------------------------------------------------------------------
BatchTicketImporter (src/freshservice_api/batch_ticket_importer.py) and the
standalone TicketImporter (src/ticket_importer.py)
---------------------------------------------------------------------- -/

/-- The create payload _perform_api_action builds for an importer row: email,
subject, description, source = 1002 and category unconditionally; sub and item
categories only when truthy. -/
def importerBuildPayload (row : ImporterRow) : List (String × PyVal) :=
  let opt : Option String → PyVal := fun v => match v with
    | none => PyVal.nul
    | some s => PyVal.str s
  [("email", opt row.email), ("subject", opt row.subject),
   ("description", opt row.description), ("source", PyVal.int 1002),
   ("category", opt row.category)] ++
  (if pyTruthyStr row.sub_category then [("sub_category", opt row.sub_category)] else []) ++
  (if pyTruthyStr row.item_category then [("item_category", opt row.item_category)] else [])

/-- BatchTicketImporter._fetch_and_lock_next_item: same shape as the
updater's, over request_timestamp IS NULL, and it also begins by reading the
unbound self.random_order. -/
def fetchAndLockNextItemImporter (randomOrder : Option Bool)
    (pick : List ImporterRow → Option ImporterRow) (now : ℚ) (db : ImporterDb) :
    Except PyExc (Option ImporterRow × ImporterDb) :=
  match randomOrder with
  | none => .error (.attributeError "random_order")
  | some ro =>
    let ready := db.tickets.filter (fun t => t.request_timestamp == none)
    let ordered :=
      match maxByIdRowI ready with
      | none => none
      | some b => some b
    match (if ro then pick ready else ordered) with
    | none => .ok (none, db)
    | some row =>
      .ok (some row,
        { db with tickets := db.tickets.map (fun t =>
            if t.id == row.id then { t with request_timestamp := some now } else t) })
where
  /-- ORDER BY id DESC LIMIT 1 over importer rows. -/
  maxByIdRowI : List ImporterRow → Option ImporterRow
    | [] => none
    | t :: ts =>
      match maxByIdRowI ts with
      | none => some t
      | some b => if b.id < t.id then some t else some b

/-- The importer fetch as the program runs it: random_order is unbound. -/
def importerFetch (now : ℚ) (db : ImporterDb) : Except PyExc (Option ImporterRow × ImporterDb) :=
  fetchAndLockNextItemImporter processorRandomOrderAttr (fun _ => none) now db

/-- Intermediate and final results of the try-block body of _worker_loop
under the importer strategy. -/
structure ImporterTryResult where
  events : List ClientEvent
  fsState : FsApiState
  created : Except PyExc (List (String × PyVal))
  outcome : Except PyExc Unit

/-- The try-block body under the importer strategy:
response = self.fs_api.ticket().create(payload) — Ticket(client) has id None
so create's id guard passes, the body dict is the payload, _request POSTs it,
and _hydrate folds the JSON result into the fresh ticket; then the worker
reads response.status_code.  created is the Ticket the call returns (or the
exception); outcome is ok only if the status read and everything after it
succeeded, i.e. only if the success branch ran. -/
def importerTryBlock (parser : String → Except PyExc PyVal) (responses : Nat → HttpResp)
    (maxRetries : Nat) (fsSt : FsApiState) (clock : ℚ) (row : ImporterRow) :
    ImporterTryResult :=
  let _payload := importerBuildPayload row
  let r := fsRequest responses maxRetries "POST" "tickets" fsSt clock
  let created : Except PyExc (List (String × PyVal)) :=
    match r.2.2 with
    | .error e => .error e
    | .ok j => ticketHydrate parser ticketInitAttrs j
  let outcome : Except PyExc Unit :=
    match created with
    | .error e => .error e
    | .ok t =>
      match getattrTicket t "status_code" with
      | .error e => .error e
      | .ok _ => .ok ()
  ⟨r.1, r.2.1, created, outcome⟩

/-- _handle_failure of the importer: store status and message on the row. -/
def importerHandleFailure (db : ImporterDb) (rowId : Int)
    (status : Option Int) (msg : String) : ImporterDb :=
  { db with tickets := db.tickets.map (fun t =>
      if t.id == rowId then
        { t with response_status_code := status, error_message := some msg }
      else t) }

/-- A row matched by the standalone importer's retry_failed UPDATE after the
SET clause: request_timestamp, response_status_code and error_message cleared;
response_ticket_id and the payload columns untouched. -/
def clearImporterRow (t : ImporterRow) : ImporterRow :=
  { t with request_timestamp := none, response_status_code := none, error_message := none }

/-- TicketImporter.retry_failed (src/ticket_importer.py): one UPDATE WHERE
response_status_code IS NOT 201.  SQLite's IS NOT is null-aware: a NULL
response_status_code IS NOT 201 is true, so never-answered rows are matched
too.  The reported quantity is the rowcount, i.e. the number of matched rows
whether or not their values change. -/
def retryFailedImporterStandalone (db : ImporterDb) : ImporterDb × Nat :=
  ({ db with tickets := db.tickets.map (fun t =>
       if t.response_status_code == some 201 then t else clearImporterRow t) },
   (db.tickets.filter (fun t => !(t.response_status_code == some 201))).length)

/- ----------------------------------------------------------------------
BaseBatchProcessor (src/freshservice_api/base_batch_processor.py)
---------------------------------------------------------------------- -/

/-- Attributes assigned by BaseBatchProcessor.__init__ — and only these; the
subclasses' __init__ just delegate here, so in particular random_order is
never bound. -/
def baseProcessorInitAttrNames : List String :=
  ["fs_api", "db_filename", "iteration_count", "iteration_limit",
   "success_count", "failure_count", "start_time", "count_lock", "print_lock"]

/-- The binding of self.fs_api.controller as read by _print_progress:
FreshserviceApi.__init__ assigns only the names in fsApiInitAttrNames, and no
other code assigns to the client, so controller is unbound. -/
def fsApiControllerAttr : Option ControllerState := none

/-- _print_progress(row_id, status_code): after computing elapsed time and
rates from attributes that do exist, it reads
self.fs_api.controller.server_ratelimit_remaining; the controller attribute is
unbound, so the read raises AttributeError.  (The remainder of the function
only formats and prints the progress line.) -/
def printProgress (_rowId : Int) (_statusCode : Option Int) : Except PyExc Unit :=
  match fsApiControllerAttr with
  | none => .error (.attributeError "controller")
  | some _ => .ok ()

/-- The counters shared by the worker threads (guarded by count_lock). -/
structure SharedState where
  iteration_count : Int
  iteration_limit : Option Int
  success_count : Int
  failure_count : Int
deriving Repr, DecidableEq

/-- The break condition at the top of _worker_loop:
if self.iteration_limit and self.iteration_count >= self.iteration_limit —
a None (or zero) iteration_limit is falsy and never breaks. -/
def breakCond (sh : SharedState) : Bool :=
  match sh.iteration_limit with
  | none => false
  | some l => !(l == 0) && decide (l ≤ sh.iteration_count)

/-- How a worker's loop ends. -/
inductive WorkerExit where
  | normal
  | exc (e : PyExc)
  | fuelOut
deriving Repr, DecidableEq

/-- Result of one worker's _worker_loop run. -/
structure WorkerResult (Db : Type) where
  exit : WorkerExit
  rowsProcessed : Nat
  events : List ClientEvent
  shared : SharedState
  db : Db

/-- The strategy-specific operations _worker_loop dispatches to.  tryBlock
covers lines 64-89 (perform the API action, read status_code, record success
or failure and the db write of the chosen handler); its Except Unit is ok
exactly when the success branch ran. -/
structure BatchStrategy (Db Row : Type) where
  fetchAndLock : ℚ → Db → Except PyExc (Option Row × Db)
  tryBlock : Row → Db → List ClientEvent × Except PyExc Unit × Db
  rowId : Row → Int

/-- _worker_loop for one worker.  fuel bounds the number of iterations so the
recursion is structural; every theorem quantifies over it or fixes it large
enough.  Exceptions from _fetch_and_lock_next_item and from _print_progress
are not caught inside the loop and terminate the worker (exit = exc). -/
def workerLoop {Db Row : Type} (S : BatchStrategy Db Row) :
    Nat → ℚ → SharedState → Db → WorkerResult Db
  | 0, _, sh, db => ⟨.fuelOut, 0, [], sh, db⟩
  | fuel + 1, now, sh, db =>
    if breakCond sh then ⟨.normal, 0, [], sh, db⟩
    else
      let sh := { sh with iteration_count := sh.iteration_count + 1 }
      match S.fetchAndLock now db with
      | .error e => ⟨.exc e, 0, [], sh, db⟩
      | .ok (none, db1) => ⟨.normal, 0, [], sh, db1⟩
      | .ok (some row, db1) =>
        let tb := S.tryBlock row db1
        let sh :=
          match tb.2.1 with
          | .ok _ => { sh with success_count := sh.success_count + 1 }
          | .error _ => { sh with failure_count := sh.failure_count + 1 }
        match printProgress (S.rowId row) none with
        | .error e => ⟨.exc e, 1, tb.1, sh, tb.2.2⟩
        | .ok _ =>
          let r := workerLoop S fuel now sh tb.2.2
          ⟨r.exit, r.rowsProcessed + 1, tb.1 ++ r.events, r.shared, r.db⟩

/-- The updater strategy as run (unbound random_order; the try block raises
before issuing any request, then _handle_failure records the TypeError with a
None status). -/
def updaterStrategy : BatchStrategy UpdaterDb TicketRow :=
  { fetchAndLock := updaterFetch
    tryBlock := fun row db =>
      let tb := updaterTryBlock row
      let db1 :=
        match tb.2 with
        | .ok _ => db
        | .error _ => updaterHandleFailure db row.id none "TypeError"
      (tb.1, tb.2, db1)
    rowId := fun row => row.id }

/-- The importer strategy as run: the try-block threads one _request call per
row through a fixed client state and clock — inconsequential in the theorems
below, where the worker dies before any call happens. -/
def importerStrategy (parser : String → Except PyExc PyVal) (responses : Nat → HttpResp)
    (maxRetries : Nat) (fsSt : FsApiState) (clock : ℚ) :
    BatchStrategy ImporterDb ImporterRow :=
  { fetchAndLock := importerFetch
    tryBlock := fun row db =>
      let tb := importerTryBlock parser responses maxRetries fsSt clock row
      let db1 :=
        match tb.outcome with
        | .ok _ => db
        | .error e =>
          importerHandleFailure db row.id
            (match e with | .freshserviceHTTPError s => some (s : Int) | _ => none)
            "error"
      (tb.events, tb.outcome, db1)
    rowId := fun row => row.id }

/-- Aggregate outcome of run(limit, max_workers). -/
structure RunResult (Db : Type) where
  rowsProcessed : Nat
  events : List ClientEvent
  shared : SharedState
  db : Db
  workerExits : List WorkerExit

/-- The worker pool of run: each submitted _worker_loop future is drained by
future.result() inside a try/except that only logs, so a worker's exception
never escapes run.  The pool is modelled by running the workers in sequence;
the only shared interaction is through the counters, whose lock-guarded
updates commute, and in the runs the theorems below consider no worker ever
blocks, so any interleaving yields the same per-worker observables. -/
def runWorkers {Db Row : Type} (S : BatchStrategy Db Row) (fuel : Nat) (now : ℚ) :
    Nat → SharedState → Db → RunResult Db
  | 0, sh, db => ⟨0, [], sh, db, []⟩
  | k + 1, sh, db =>
    let r := workerLoop S fuel now sh db
    let rest := runWorkers S fuel now k r.shared r.db
    ⟨r.rowsProcessed + rest.rowsProcessed, r.events ++ rest.events,
     rest.shared, rest.db, r.exit :: rest.workerExits⟩

/-- run(limit, max_workers): iteration_count is reset; iteration_limit is set
only when limit is truthy — if limit: int(limit) — so both None and 0 leave it
None; then the workers run and the final stats are printed. -/
def runProcessor {Db Row : Type} (S : BatchStrategy Db Row) (fuel : Nat) (now : ℚ)
    (limit : Option Int) (workers : Nat) (db : Db) : RunResult Db :=
  let lim : Option Int :=
    match limit with
    | some l => if l == 0 then none else some l
    | none => none
  runWorkers S fuel now workers
    { iteration_count := 0, iteration_limit := lim, success_count := 0, failure_count := 0 } db

/- ----------------------------------------------------------------------
Claim-side definitions (following the claims' words, for comparison with the
code-derived definitions above) and concrete instances
---------------------------------------------------------------------- -/

/-- Modelled from claim C10's words: one component of a valid_categories row
matches one ticket component, a missing (NULL) ticket component being matched
as NULL and a present one by equality. -/
def componentMatchesAsNull (vcomp tcomp : Option String) : Prop :=
  match tcomp with
  | none => vcomp = none
  | some s => vcomp = some s

instance (vcomp tcomp : Option String) : Decidable (componentMatchesAsNull vcomp tcomp) :=
  match tcomp with
  | none => inferInstanceAs (Decidable (vcomp = none))
  | some s => inferInstanceAs (Decidable (vcomp = some s))

/-- Modelled from claim C10's words: the ticket's (category, sub_category,
item_category) triple is present in valid_categories, with missing components
matched as NULL. -/
def claimTriplePresentInValid (db : UpdaterDb) (c s i : Option String) : Prop :=
  ∃ v ∈ db.valid_categories,
    componentMatchesAsNull (some v.category) c ∧
    componentMatchesAsNull v.sub_category s ∧
    componentMatchesAsNull v.item_category i

instance (db : UpdaterDb) (c s i : Option String) :
    Decidable (claimTriplePresentInValid db c s i) :=
  List.decidableBEx _ db.valid_categories

/-- Modelled from claim C9 and the data model: an importer row is failed when
it has a response status other than 201; a row with no status yet is pending
or in-progress, not failed. -/
def importerRowFailed (t : ImporterRow) : Prop :=
  ∃ c, t.response_status_code = some c ∧ c ≠ 201

instance (t : ImporterRow) : Decidable (importerRowFailed t) :=
  match h : t.response_status_code with
  | none => .isFalse (fun ⟨c, hc, _⟩ => by rw [h] at hc; exact Option.noConfusion hc)
  | some c =>
    if hc : c = 201 then
      .isFalse (fun ⟨d, hd, hne⟩ => by
        rw [h] at hd; exact hne (by cases hd; exact hc))
    else .isTrue ⟨c, h, hc⟩

/-- A ticket row with the given id and triple, otherwise fresh. -/
def mkTicketRow (id : Int) (c s i : Option String) : TicketRow :=
  { id := id, category := c, sub_category := s, item_category := i,
    new_category := none, new_sub_category := none, new_item_category := none,
    update_state := none, request_timestamp := none,
    response_status_code := none, error_message := none }

/-- Counterexample database for claim C10: one unclassified ticket whose
sub_category is NULL but whose item_category is present, and a valid set
containing (A, NULL, NULL) only. -/
def c10Db : UpdaterDb :=
  { tickets := [mkTicketRow 1 (some "A") none (some "I")]
    valid_categories := [{ category := "A", sub_category := none, item_category := none }]
    category_mappings := [] }

/-- Counterexample database for claim C6: one unclassified ticket and a
mapping whose target triple has a NULL new_category. -/
def c6Db : UpdaterDb :=
  { tickets := [mkTicketRow 1 (some "Old") none none]
    valid_categories := []
    category_mappings := [{ old_category := "Old", old_sub_category := none,
                            old_item_category := none, new_category := none,
                            new_sub_category := some "NewSub", new_item_category := none }] }

/-- A fresh importer row with the given id. -/
def mkImporterRow (id : Int) : ImporterRow :=
  { id := id, email := some "a@example.com", subject := some "s",
    description := some "d", category := some "c", sub_category := none,
    item_category := none, request_timestamp := none, response_ticket_id := none,
    response_status_code := none, error_message := none }

/-- Counterexample database for claim C9: a pristine row (never claimed) and
an in-progress row (claimed, no response yet); neither is failed. -/
def c9Db : ImporterDb :=
  { tickets := [mkImporterRow 1, { mkImporterRow 2 with request_timestamp := some 5 }] }

/-- A response oracle that always answers 200 with an empty JSON object and
no headers. -/
def ok200Oracle : Nat → HttpResp :=
  fun _ => { status_code := 200, headers := [], jsonBody := some (.dict []), textBody := "" }

/-- A date parser for witnesses: keep the ISO string as an abstract datetime. -/
def isoParser : String → Except PyExc PyVal := fun s => .ok (.dateObj s)

/-- Amended-claim side of C10: the truthiness cascade by which a ticket's
triple is matched against valid_categories.  All three components truthy:
exact equality; category and sub_category truthy (item missing or empty):
rows with item_category NULL; only category truthy: rows with sub and item
NULL — a present item_category is ignored when sub_category is missing;
category missing: no match. -/
def validCascadeProp (db : UpdaterDb) (t : TicketRow) : Prop :=
  match pyTruthyStr t.category, pyTruthyStr t.sub_category, pyTruthyStr t.item_category with
  | true, true, true =>
    ∃ v ∈ db.valid_categories, some v.category = t.category ∧
      v.sub_category = t.sub_category ∧ v.item_category = t.item_category
  | true, true, false =>
    ∃ v ∈ db.valid_categories, some v.category = t.category ∧
      v.sub_category = t.sub_category ∧ v.item_category = none
  | true, false, _ =>
    ∃ v ∈ db.valid_categories, some v.category = t.category ∧
      v.sub_category = none ∧ v.item_category = none
  | false, _, _ => False

/-- Amended-claim side of C10: the analogous cascade over a category_mappings
row, branching on the truthiness of the ticket's sub and item components. -/
def mapCascadeMatch (t : TicketRow) (m : CategoryMappingRow) : Prop :=
  match pyTruthyStr t.sub_category, pyTruthyStr t.item_category with
  | true, true => some m.old_category = t.category ∧
      m.old_sub_category = t.sub_category ∧ m.old_item_category = t.item_category
  | true, false => some m.old_category = t.category ∧
      m.old_sub_category = t.sub_category ∧ m.old_item_category = none
  | false, _ => some m.old_category = t.category ∧
      m.old_sub_category = none ∧ m.old_item_category = none

/-- The row prepare produces for c6Db's single ticket: ready, with the
mapping's NULL new_category carried over. -/
def c6ReadyRow : TicketRow :=
  { mkTicketRow 1 (some "Old") none none with
      update_state := some "ready", new_sub_category := some "NewSub" }

/-- A one-row updater database with a failed ticket, for the C9 witness. -/
def c9UpdaterDb : UpdaterDb :=
  { tickets := [{ mkTicketRow 3 (some "X") none none with
      update_state := some "failed", request_timestamp := some 1,
      response_status_code := some 500, error_message := some "boom" }]
    valid_categories := []
    category_mappings := [] }

/- ----------------------------------------------------------------------
Theorems
---------------------------------------------------------------------- -/

/-- Claim C5 (supporting evidence): _fetch_and_lock_next_item never reaches
its SELECT — in both strategies its first statement reads the unbound
self.random_order and the resulting AttributeError is not caught (the except
clause covers only sqlite3.OperationalError), so for every database state the
call raises instead of claiming a row or returning None. -/
theorem fetch_and_lock_always_raises :
    (∀ (now : ℚ) (db : UpdaterDb),
        updaterFetch now db = .error (.attributeError "random_order")) ∧
    (∀ (now : ℚ) (db : ImporterDb),
        importerFetch now db = .error (.attributeError "random_order")) :=
  ⟨fun _ _ => rfl, fun _ _ => rfl⟩

/-- Claim C7 (counterexample): a headers mapping whose x-ratelimit-remaining
value does not parse as an integer makes update_and_notify raise ValueError —
the int() call on that header is not guarded — so the operation is not total
and malformed x-ratelimit-* values are fatal, contrary to the claim. -/
theorem update_and_notify_raises_on_malformed_header :
    update_and_notify (initController 10) 0 [("x-ratelimit-remaining", "many")] =
      .error (.valueError "invalid literal for int") := by
  rfl

/-- Helper for C7: the x-ratelimit ingestion succeeds whenever the present
header values parse. -/
theorem ingestRatelimitHeaders_ok (st : ControllerState) (headers : List (String × String))
    (hr : ∀ v, headerGet headers "x-ratelimit-remaining" = some v → (pyIntParse v).isSome)
    (ht : ∀ v, headerGet headers "x-ratelimit-total" = some v → (pyIntParse v).isSome) :
    ∃ out, ingestRatelimitHeaders st headers = .ok out := by
  have hTotal : ∀ (st' : ControllerState) (prev : Int),
      ∃ out, ingestRatelimitHeaders.ingestTotal st' prev headers = .ok out := by
    intro st' prev
    unfold ingestRatelimitHeaders.ingestTotal
    cases hT : headerGet headers "x-ratelimit-total" with
    | none => exact ⟨_, rfl⟩
    | some t =>
      have hs := ht t hT
      dsimp only
      cases hp : pyIntParse t with
      | none => rw [hp] at hs; exact absurd hs (by simp)
      | some v => exact ⟨_, rfl⟩
  unfold ingestRatelimitHeaders
  cases hR : headerGet headers "x-ratelimit-remaining" with
  | none => exact hTotal st st.server_ratelimit_remaining
  | some r =>
    have hs := hr r hR
    dsimp only
    cases hp : pyIntParse r with
    | none => rw [hp] at hs; exact absurd hs (by simp)
    | some v => exact hTotal _ st.server_ratelimit_remaining

/-- Claim C7 (amended): update_and_notify never raises provided the
x-ratelimit-remaining and x-ratelimit-total values, when present, parse as
integers; in particular a malformed Retry-After alone is ignored (it falls
through to the standard ingestion), but malformed x-ratelimit-* values raise
ValueError. -/
theorem update_and_notify_total_on_wellformed_headers
    (st : ControllerState) (now : ℚ) (headers : List (String × String))
    (hr : ∀ v, headerGet headers "x-ratelimit-remaining" = some v → (pyIntParse v).isSome)
    (ht : ∀ v, headerGet headers "x-ratelimit-total" = some v → (pyIntParse v).isSome) :
    ∃ out, update_and_notify st now headers = .ok out := by
  unfold update_and_notify
  cases hRA : headerGet headers "Retry-After" with
  | none => exact ingestRatelimitHeaders_ok _ headers hr ht
  | some ra =>
    dsimp only
    cases hp : pyIntParse ra with
    | none => exact ingestRatelimitHeaders_ok _ headers hr ht
    | some secs => exact ⟨_, rfl⟩

/-- Witness for the amended claim C7: a malformed Retry-After header alone is
ignored and the call returns normally. -/
theorem update_and_notify_total_on_wellformed_headers_witness :
    ∃ out, update_and_notify (initController 10) 0 [("Retry-After", "soon")] = .ok out :=
  update_and_notify_total_on_wellformed_headers (initController 10) 0
    [("Retry-After", "soon")]
    (fun v h => by
      rw [show headerGet [("Retry-After", "soon")] "x-ratelimit-remaining" = none from rfl] at h
      exact Option.noConfusion h)
    (fun v h => by
      rw [show headerGet [("Retry-After", "soon")] "x-ratelimit-total" = none from rfl] at h
      exact Option.noConfusion h)

/-- Claim C8: with no Retry-After pause active and the effective remaining
quota strictly above the headroom, one pass of block_until_ready admits the
caller exactly when now − last_request_timestamp has reached
(60 / limit_total) × multiplier, where multiplier is 1 while the effective
remaining exceeds 3 × headroom and (3 × headroom) / max(1, effective)
otherwise; and on admission it increments requests_in_flight, stamps
last_request_timestamp = now, resets the probe backoff to
max(1, 60 / limit_total) and changes nothing else. -/
theorem blockStep_normal_regime (st : ControllerState) (now : ℚ)
    (htotal : 0 < st.server_ratelimit_total)
    (hpause : st.retry_after_timestamp ≤ now)
    (hrem : st.headroom < st.server_ratelimit_remaining - st.requests_in_flight) :
    ((∃ st2, blockStep st now = .admitted st2) ↔
      (60 / (st.server_ratelimit_total : ℚ)) *
        (if 3 * st.headroom < st.server_ratelimit_remaining - st.requests_in_flight then (1 : ℚ)
         else ((3 * st.headroom : Int) : ℚ) /
           ((max 1 (st.server_ratelimit_remaining - st.requests_in_flight) : Int) : ℚ)) ≤
        now - st.last_request_timestamp) ∧
    (∀ st2, blockStep st now = .admitted st2 →
      st2.requests_in_flight = st.requests_in_flight + 1 ∧
      st2.last_request_timestamp = now ∧
      st2.probe_wait_seconds = max 1 (60 / (st.server_ratelimit_total : ℚ)) ∧
      st2.server_ratelimit_remaining = st.server_ratelimit_remaining ∧
      st2.server_ratelimit_total = st.server_ratelimit_total ∧
      st2.headroom = st.headroom ∧
      st2.retry_after_timestamp = st.retry_after_timestamp ∧
      st2.probe_scheduled = st.probe_scheduled) := by
  have hnp : ¬ (now < st.retry_after_timestamp) := not_lt.mpr hpause
  have hm : st.headroom * 3 = 3 * st.headroom := mul_comm _ _
  unfold blockStep
  rw [if_neg hnp]
  dsimp only
  rw [if_pos hrem, hm]
  by_cases hlt :
      now - st.last_request_timestamp <
        60 / (st.server_ratelimit_total : ℚ) *
          (if 3 * st.headroom < st.server_ratelimit_remaining - st.requests_in_flight then (1 : ℚ)
           else ((3 * st.headroom : Int) : ℚ) /
             ((max 1 (st.server_ratelimit_remaining - st.requests_in_flight) : Int) : ℚ))
  · rw [if_pos hlt]
    constructor
    · constructor
      · rintro ⟨st2, h2⟩; exact absurd h2 (by simp)
      · intro hle; exact absurd hlt (not_lt.mpr hle)
    · intro st2 h2; exact absurd h2 (by simp)
  · rw [if_neg hlt]
    constructor
    · exact ⟨fun _ => not_lt.mp hlt, fun _ => ⟨_, rfl⟩⟩
    · intro st2 h2
      injection h2 with h3
      subst h3
      exact ⟨rfl, rfl, rfl, rfl, rfl, rfl, rfl, rfl⟩

/-- Witness for claim C8: a fresh controller (quota 160, headroom 10) at time
10 with no pause admits the caller. -/
theorem blockStep_normal_regime_witness :
    ∃ st2, blockStep (initController 10) 10 = .admitted st2 :=
  ((blockStep_normal_regime (initController 10) 10 (by decide) (by norm_num [initController])
      (by decide)).1).mpr (by norm_num [initController])

/-- Helper for C1: no iteration of the _request loop ever emits a coordinator
event — the source simply contains no call to block_until_ready or
update_and_notify. -/
theorem requestLoop_no_coordinator_events (responses : Nat → HttpResp) (maxRetries : Nat) :
    ∀ (fuel sendIdx : Nat) (st : FsApiState) (clock : ℚ),
      ClientEvent.admission ∉ (requestLoop responses maxRetries fuel sendIdx st clock).1 ∧
      ClientEvent.ingest ∉ (requestLoop responses maxRetries fuel sendIdx st clock).1 := by
  intro fuel
  induction fuel with
  | zero => intro sendIdx st clock; simp [requestLoop]
  | succ n ih =>
    intro sendIdx st clock
    unfold requestLoop
    dsimp only
    constructor <;>
    · simp only [List.mem_append, List.mem_cons, not_or]
      refine ⟨?_, by simp, ?_⟩
      · -- the pre-wait events are at most a sleep
        split <;> (try split) <;> simp
      · -- the tail events are empty except on the 429 retry path,
        -- which is covered by the induction hypothesis
        repeat' split
        all_goals
          first
            | exact (ih _ _ _).1
            | exact (ih _ _ _).2
            | simp

/-- Helper: rebinding an existing attribute does not change which names are
bound. -/
theorem hasKey_aset (m : List (String × PyVal)) (k : String) (v : PyVal) (k' : String) :
    hasKey (aset m k v) k' = hasKey m k' := by
  unfold hasKey aset
  rw [List.any_map]
  congr 1
  funext p
  dsimp only [Function.comp]
  split <;> rfl

/-- Helper: the _hydrate folding loop only rebinds attributes the ticket
already has, so the bound-name set is invariant. -/
theorem hydrateFields_hasKey (parser : String → Except PyExc PyVal) :
    ∀ (data attrs out : List (String × PyVal)),
      hydrateFields parser attrs data = .ok out → ∀ k, hasKey out k = hasKey attrs k := by
  intro data
  induction data with
  | nil =>
    intro attrs out h k
    unfold hydrateFields at h
    injection h with h2
    subst h2
    rfl
  | cons p rest ih =>
    intro attrs out h k
    unfold hydrateFields at h
    by_cases hk : hasKey attrs p.1
    · rw [if_pos hk] at h
      by_cases hd : p.1 ∈ dateFields
      · rw [if_pos hd] at h
        cases hp : parseDateVal parser p.2 with
        | ok d =>
          rw [hp] at h
          rw [ih _ _ h k, hasKey_aset]
        | error e => rw [hp] at h; exact absurd h (by simp)
      · rw [if_neg hd] at h
        rw [ih _ _ h k, hasKey_aset]
    · rw [if_neg hk] at h
      exact ih _ _ h k

/-- Helper: a name that is not bound cannot be read. -/
theorem alookup_eq_none_of_not_hasKey (m : List (String × PyVal)) (k : String)
    (h : hasKey m k = false) : alookup m k = none := by
  unfold alookup
  rw [List.find?_eq_none.mpr]
  · rfl
  · intro x hx hbeq
    have h2 : hasKey m k = true := List.any_eq_true.mpr ⟨x, hx, hbeq⟩
    rw [h] at h2
    exact Bool.noConfusion h2

/-- Helper: _hydrate preserves the bound-name set of the ticket. -/
theorem ticketHydrate_hasKey (parser : String → Except PyExc PyVal)
    (attrs : List (String × PyVal)) (j : PyVal) (out : List (String × PyVal))
    (h : ticketHydrate parser attrs j = .ok out) (k : String) :
    hasKey out k = hasKey attrs k := by
  unfold ticketHydrate at h
  split at h
  · -- data is a dict; resolve the ticket envelope
    rename_i fields
    cases hin : alookup fields "ticket" with
    | some v =>
      rw [hin] at h
      dsimp only at h
      cases v
      case dict => exact hydrateFields_hasKey parser _ attrs out h k
      all_goals (injection h with h2; subst h2; rfl)
    | none =>
      rw [hin] at h
      dsimp only at h
      exact hydrateFields_hasKey parser _ attrs out h k
  · injection h with h2; subst h2; rfl

/-- Claim C1 (supporting evidence): every invocation of _request issues its
first HTTP attempt yet its event trace contains no admission and no
response-ingestion event — the client never consults the RateLimitController
(which is in fact never instantiated by FreshserviceApi). -/
theorem request_never_paced_by_controller (responses : Nat → HttpResp) (maxRetries : Nat)
    (method path : String) (st : FsApiState) (clock : ℚ) :
    ClientEvent.admission ∉ (fsRequest responses maxRetries method path st clock).1 ∧
    ClientEvent.ingest ∉ (fsRequest responses maxRetries method path st clock).1 ∧
    ClientEvent.httpSend 0 ∈ (fsRequest responses maxRetries method path st clock).1 := by
  refine ⟨(requestLoop_no_coordinator_events responses maxRetries _ 0 st clock).1,
          (requestLoop_no_coordinator_events responses maxRetries _ 0 st clock).2, ?_⟩
  unfold fsRequest requestLoop
  dsimp only
  simp

/-- Helper: the importer try-block's outcome, unfolded against its created
ticket. -/
theorem importerTryBlock_outcome_eq (parser : String → Except PyExc PyVal)
    (responses : Nat → HttpResp) (maxRetries : Nat) (fsSt : FsApiState) (clock : ℚ)
    (row : ImporterRow) :
    (importerTryBlock parser responses maxRetries fsSt clock row).outcome =
      match (importerTryBlock parser responses maxRetries fsSt clock row).created with
      | .error e => .error e
      | .ok t =>
        match getattrTicket t "status_code" with
        | .error e => .error e
        | .ok _ => .ok () := rfl

/-- Helper: whatever dict _request returns, the Ticket that create() hydrates
from it still has no status_code attribute. -/
theorem created_ticket_has_no_status_code (parser : String → Except PyExc PyVal)
    (j : PyVal) (t : List (String × PyVal))
    (h : ticketHydrate parser ticketInitAttrs j = .ok t) :
    getattrTicket t "status_code" = .error (.attributeError "status_code") := by
  have hk : hasKey t "status_code" = false := by
    rw [ticketHydrate_hasKey parser ticketInitAttrs j t h "status_code"]
    decide
  unfold getattrTicket
  rw [alookup_eq_none_of_not_hasKey t "status_code" hk]

/-- Helper: when the importer's create call returns a ticket, the try block
fails on reading response.status_code. -/
theorem importerTryBlock_created_ok (parser : String → Except PyExc PyVal)
    (responses : Nat → HttpResp) (maxRetries : Nat) (fsSt : FsApiState) (clock : ℚ)
    (row : ImporterRow) (t : List (String × PyVal))
    (h : (importerTryBlock parser responses maxRetries fsSt clock row).created = .ok t) :
    (importerTryBlock parser responses maxRetries fsSt clock row).outcome =
      .error (.attributeError "status_code") := by
  rw [importerTryBlock_outcome_eq, h]
  dsimp only
  -- created = .ok t can only come out of ticketHydrate from ticketInitAttrs
  have h2 : ∃ j, ticketHydrate parser ticketInitAttrs j = .ok t := by
    revert h
    show (match (fsRequest responses maxRetries "POST" "tickets" fsSt clock).2.2 with
          | .error e => Except.error e
          | .ok j => ticketHydrate parser ticketInitAttrs j) = .ok t →
        ∃ j, ticketHydrate parser ticketInitAttrs j = .ok t
    cases (fsRequest responses maxRetries "POST" "tickets" fsSt clock).2.2 with
    | error e => intro hx; exact absurd hx (by simp)
    | ok j => intro hx; exact ⟨j, hx⟩
  obtain ⟨j, hj⟩ := h2
  rw [created_ticket_has_no_status_code parser j t hj]

/-- Claim C2: the worker loop's success branch is unreachable.  For the
updater, _perform_api_action raises TypeError (two positional arguments
against update(self, payload=None)) before any request is issued and with an
empty event trace; for the importer, whatever the server answers and whatever
the date parser does, the try block ends in an exception — and whenever the
create call does return a Ticket, the failure is precisely the AttributeError
from reading the nonexistent status_code.  Hence _handle_success is never
invoked and every processed row takes the failure branch. -/
theorem worker_success_branch_unreachable :
    (∀ row : TicketRow, updaterTryBlock row =
        ([], .error (.typeError "update takes from 1 to 2 positional arguments"))) ∧
    (∀ (parser : String → Except PyExc PyVal) (responses : Nat → HttpResp)
        (maxRetries : Nat) (fsSt : FsApiState) (clock : ℚ) (row : ImporterRow),
      (∃ e, (importerTryBlock parser responses maxRetries fsSt clock row).outcome =
        .error e) ∧
      (∀ t, (importerTryBlock parser responses maxRetries fsSt clock row).created = .ok t →
        (importerTryBlock parser responses maxRetries fsSt clock row).outcome =
          .error (.attributeError "status_code"))) := by
  refine ⟨fun row => rfl, ?_⟩
  intro parser responses maxRetries fsSt clock row
  refine ⟨?_, fun t ht => importerTryBlock_created_ok parser responses maxRetries
    fsSt clock row t ht⟩
  cases hc : (importerTryBlock parser responses maxRetries fsSt clock row).created with
  | error e =>
    refine ⟨e, ?_⟩
    rw [importerTryBlock_outcome_eq, hc]
  | ok t =>
    exact ⟨.attributeError "status_code",
      importerTryBlock_created_ok parser responses maxRetries fsSt clock row t hc⟩

/-- Witness for claim C2: against a 200-with-empty-JSON server the importer's
try block ends in exactly the status_code AttributeError (the create call
returns the freshly hydrated ticket), and the updater's try block raises the
TypeError with no events. -/
theorem worker_success_branch_unreachable_witness :
    updaterTryBlock (mkTicketRow 1 none none none) =
      ([], .error (.typeError "update takes from 1 to 2 positional arguments")) ∧
    (importerTryBlock isoParser ok200Oracle 5 fsApiInit 0 (mkImporterRow 1)).outcome =
      .error (.attributeError "status_code") :=
  ⟨worker_success_branch_unreachable.1 (mkTicketRow 1 none none none),
   (worker_success_branch_unreachable.2 isoParser ok200Oracle 5 fsApiInit 0
      (mkImporterRow 1)).2 ticketInitAttrs rfl⟩

/-- Helper: a strategy whose claim primitive always raises makes the worker
die on its first iteration, before touching the database or emitting any
event. -/
theorem workerLoop_dies_on_fetch {Db Row : Type} (S : BatchStrategy Db Row) (e0 : PyExc)
    (hf : ∀ now db, S.fetchAndLock now db = .error e0) (fuel : Nat) (now : ℚ)
    (sh : SharedState) (db : Db) (hfuel : 1 ≤ fuel) (hbc : breakCond sh = false) :
    workerLoop S fuel now sh db =
      ⟨.exc e0, 0, [], { sh with iteration_count := sh.iteration_count + 1 }, db⟩ := by
  cases fuel with
  | zero => omega
  | succ m =>
    unfold workerLoop
    rw [if_neg (by simp [hbc]), hf now db]

/-- Helper: with no iteration limit, a dead-fetch worker processes nothing,
emits nothing, and leaves the database untouched. -/
theorem workerLoop_fetch_dead {Db Row : Type} (S : BatchStrategy Db Row) (e0 : PyExc)
    (hf : ∀ now db, S.fetchAndLock now db = .error e0) (fuel : Nat) (now : ℚ)
    (sh : SharedState) (db : Db) (hlim : sh.iteration_limit = none) :
    (workerLoop S fuel now sh db).rowsProcessed = 0 ∧
    (workerLoop S fuel now sh db).events = [] ∧
    (workerLoop S fuel now sh db).db = db ∧
    (workerLoop S fuel now sh db).shared.iteration_limit = none := by
  cases fuel with
  | zero => exact ⟨rfl, rfl, rfl, hlim⟩
  | succ m =>
    have hbc : breakCond sh = false := by unfold breakCond; rw [hlim]
    rw [workerLoop_dies_on_fetch S e0 hf (m + 1) now sh db (by omega) hbc]
    exact ⟨rfl, rfl, rfl, hlim⟩

/-- Helper: the whole pool, under the same assumptions. -/
theorem runWorkers_fetch_dead {Db Row : Type} (S : BatchStrategy Db Row) (e0 : PyExc)
    (hf : ∀ now db, S.fetchAndLock now db = .error e0) (fuel : Nat) (now : ℚ) :
    ∀ (workers : Nat) (sh : SharedState) (db : Db), sh.iteration_limit = none →
      (runWorkers S fuel now workers sh db).rowsProcessed = 0 ∧
      (runWorkers S fuel now workers sh db).events = [] ∧
      (runWorkers S fuel now workers sh db).db = db := by
  intro workers
  induction workers with
  | zero => intro sh db _; exact ⟨rfl, rfl, rfl⟩
  | succ k ih =>
    intro sh db hlim
    obtain ⟨hrows, hev, hdb, hlim2⟩ := workerLoop_fetch_dead S e0 hf fuel now sh db hlim
    unfold runWorkers
    dsimp only
    obtain ⟨ihr, ihe, ihd⟩ := ih (workerLoop S fuel now sh db).shared
      (workerLoop S fuel now sh db).db hlim2
    refine ⟨?_, ?_, ?_⟩
    · rw [hrows, ihr]
    · rw [hev, ihe]; rfl
    · rw [ihd, hdb]

/-- Claim C3: every call to _print_progress raises AttributeError (it reads
the never-assigned self.fs_api.controller), and — as the claim concludes —
under either strategy every worker whose loop passes the iteration-limit check
terminates with an uncaught exception after processing at most one row (in
fact zero: the claim primitive's own AttributeError kills it first,
cf. fetch_and_lock_always_raises). -/
theorem print_progress_always_raises :
    (∀ (rowId : Int) (status : Option Int),
        printProgress rowId status = .error (.attributeError "controller")) ∧
    (∀ (fuel : Nat) (now : ℚ) (sh : SharedState) (db : UpdaterDb),
      1 ≤ fuel → breakCond sh = false →
      (∃ e, (workerLoop updaterStrategy fuel now sh db).exit = .exc e) ∧
      (workerLoop updaterStrategy fuel now sh db).rowsProcessed ≤ 1) ∧
    (∀ (parser : String → Except PyExc PyVal) (responses : Nat → HttpResp)
        (maxRetries : Nat) (fsSt : FsApiState) (clock : ℚ)
        (fuel : Nat) (now : ℚ) (sh : SharedState) (db : ImporterDb),
      1 ≤ fuel → breakCond sh = false →
      (∃ e, (workerLoop (importerStrategy parser responses maxRetries fsSt clock)
          fuel now sh db).exit = .exc e) ∧
      (workerLoop (importerStrategy parser responses maxRetries fsSt clock)
          fuel now sh db).rowsProcessed ≤ 1) := by
  refine ⟨fun _ _ => rfl, ?_, ?_⟩
  · intro fuel now sh db hfuel hbc
    rw [workerLoop_dies_on_fetch updaterStrategy (.attributeError "random_order")
      (fun _ _ => rfl) fuel now sh db hfuel hbc]
    exact ⟨⟨_, rfl⟩, Nat.zero_le 1⟩
  · intro parser responses maxRetries fsSt clock fuel now sh db hfuel hbc
    rw [workerLoop_dies_on_fetch (importerStrategy parser responses maxRetries fsSt clock)
      (.attributeError "random_order") (fun _ _ => rfl) fuel now sh db hfuel hbc]
    exact ⟨⟨_, rfl⟩, Nat.zero_le 1⟩

/-- Witness for claim C3: one concrete call and one concrete single-worker
run under each hypothesis. -/
theorem print_progress_always_raises_witness :
    printProgress 7 (some 200) = .error (.attributeError "controller") ∧
    (∃ e, (workerLoop updaterStrategy 1 0
        { iteration_count := 0, iteration_limit := none,
          success_count := 0, failure_count := 0 } c6Db).exit = .exc e) :=
  ⟨print_progress_always_raises.1 7 (some 200),
   (print_progress_always_raises.2.1 1 0
      { iteration_count := 0, iteration_limit := none,
        success_count := 0, failure_count := 0 } c6Db (by omega) rfl).1⟩

/-- Claim C4: run with limit = 0 processes zero rows — the falsy limit leaves
iteration_limit unset, and for every database state no worker claims a row,
no event (in particular no HTTP send) is emitted, and the database is
unchanged.  (This holds because _fetch_and_lock_next_item raises before its
SELECT; had the fetch worked, limit = 0 would have meant no limit at all.) -/
theorem run_limit_zero_processes_nothing :
    (∀ (fuel : Nat) (now : ℚ) (workers : Nat) (db : UpdaterDb),
      (runProcessor updaterStrategy fuel now (some 0) workers db).rowsProcessed = 0 ∧
      (runProcessor updaterStrategy fuel now (some 0) workers db).events = [] ∧
      (runProcessor updaterStrategy fuel now (some 0) workers db).db = db) ∧
    (∀ (parser : String → Except PyExc PyVal) (responses : Nat → HttpResp)
        (maxRetries : Nat) (fsSt : FsApiState) (clock : ℚ)
        (fuel : Nat) (now : ℚ) (workers : Nat) (db : ImporterDb),
      (runProcessor (importerStrategy parser responses maxRetries fsSt clock)
          fuel now (some 0) workers db).rowsProcessed = 0 ∧
      (runProcessor (importerStrategy parser responses maxRetries fsSt clock)
          fuel now (some 0) workers db).events = [] ∧
      (runProcessor (importerStrategy parser responses maxRetries fsSt clock)
          fuel now (some 0) workers db).db = db) := by
  constructor
  · intro fuel now workers db
    exact runWorkers_fetch_dead updaterStrategy (.attributeError "random_order")
      (fun _ _ => rfl) fuel now workers _ db rfl
  · intro parser responses maxRetries fsSt clock fuel now workers db
    exact runWorkers_fetch_dead (importerStrategy parser responses maxRetries fsSt clock)
      (.attributeError "random_order") (fun _ _ => rfl) fuel now workers _ db rfl

/-- Claim C6 (counterexample): prepare marks c6Db's ticket ready with target
triple (NULL, NewSub, NULL), yet the request body _perform_api_action builds
for it contains the key category bound to NULL — not only the non-null
components of the target. -/
theorem ready_payload_counterexample :
    ((prepare c6Db).tickets.map (fun t => (t.update_state, t.new_category))) =
      [(some "ready", none)] ∧
    ((prepare c6Db).tickets.map buildUpdatePayload) =
      [[("category", none), ("sub_category", some "NewSub")]] ∧
    ("category", (none : Option String)) ∈ buildUpdatePayload c6ReadyRow :=
  ⟨rfl, rfl, by decide⟩

/-- Claim C6 (amended): for every row prepare marked ready, the request body
contains the key category bound to the target's category component — even
when that component is null — plus sub_category and item_category exactly for
the truthy (non-null, non-empty) target components with their values, and no
other entries. -/
theorem ready_payload_characterization (db : UpdaterDb) (t' : TicketRow)
    (_hmem : t' ∈ (prepare db).tickets) (_hready : t'.update_state = some "ready") :
    ∀ (k : String) (v : Option String),
      (k, v) ∈ buildUpdatePayload t' ↔
        ((k = "category" ∧ v = t'.new_category) ∨
         (k = "sub_category" ∧ pyTruthyStr t'.new_sub_category = true ∧
            v = t'.new_sub_category) ∨
         (k = "item_category" ∧ pyTruthyStr t'.new_item_category = true ∧
            v = t'.new_item_category)) := by
  intro k v
  unfold buildUpdatePayload
  cases hb : pyTruthyStr t'.new_sub_category <;>
    cases hc2 : pyTruthyStr t'.new_item_category <;>
      simp [List.mem_cons, List.mem_append, Prod.ext_iff]

/-- Witness for the amended claim C6: the c6Db ready row's body does carry
the null category entry. -/
theorem ready_payload_characterization_witness :
    ("category", (none : Option String)) ∈ buildUpdatePayload c6ReadyRow :=
  (ready_payload_characterization c6Db c6ReadyRow (by decide) rfl "category" none).mpr
    (Or.inl ⟨rfl, rfl⟩)

/-- Claim C9 (counterexample): on c9Db — a pristine row and an in-progress
row, neither in the failed state — the standalone importer's retry_failed
reports 2 matched rows, clears the in-progress row's request_timestamp (so a
non-failed row is changed), and only 1 of the 2 counted rows actually changed
at all. -/
theorem retry_failed_importer_counterexample :
    ¬ importerRowFailed (mkImporterRow 1) ∧
    ¬ importerRowFailed { mkImporterRow 2 with request_timestamp := some 5 } ∧
    (retryFailedImporterStandalone c9Db).2 = 2 ∧
    (retryFailedImporterStandalone c9Db).1.tickets = [mkImporterRow 1, mkImporterRow 2] ∧
    (c9Db.tickets.map (fun t => t.request_timestamp)) = [none, some 5] ∧
    ((c9Db.tickets.zip (retryFailedImporterStandalone c9Db).1.tickets).filter
        (fun p => !(p.1 == p.2))).length = 1 := by
  refine ⟨by decide, by decide, rfl, by decide, rfl, by decide⟩

/-- Claim C9 (amended): the category updater's retry_failed touches exactly
the rows WHERE update_state = 'failed' — clearing their state,
request_timestamp, response_status_code and error_message and leaving every
other column and every non-failed row unchanged — and reports exactly the
number of failed rows, each of which genuinely transitions.  The standalone
importer's retry_failed instead matches every row whose response_status_code
is not 201 including NULL (never-answered rows), clears those rows' three
columns, and reports the matched-row count, which can exceed the number of
rows that changed. -/
theorem retry_failed_characterization :
    (∀ (db : UpdaterDb) (i : Nat) (t : TicketRow), db.tickets[i]? = some t →
      (t.update_state ≠ some "failed" → (retryFailedUpdater db).1.tickets[i]? = some t) ∧
      (t.update_state = some "failed" →
        (retryFailedUpdater db).1.tickets[i]? = some
          { t with update_state := none, request_timestamp := none,
                   response_status_code := none, error_message := none })) ∧
    (∀ db : UpdaterDb, (retryFailedUpdater db).2 =
      (db.tickets.filter (fun t => t.update_state == some "failed")).length) ∧
    (∀ (db : ImporterDb) (i : Nat) (t : ImporterRow), db.tickets[i]? = some t →
      (t.response_status_code = some 201 →
        (retryFailedImporterStandalone db).1.tickets[i]? = some t) ∧
      (t.response_status_code ≠ some 201 →
        (retryFailedImporterStandalone db).1.tickets[i]? = some
          { t with request_timestamp := none, response_status_code := none,
                   error_message := none })) ∧
    (∀ db : ImporterDb, (retryFailedImporterStandalone db).2 =
      (db.tickets.filter (fun t => !(t.response_status_code == some 201))).length) := by
  refine ⟨?_, fun _ => rfl, ?_, fun _ => rfl⟩
  · intro db i t h
    constructor
    · intro hne
      show (db.tickets.map _)[i]? = some t
      rw [List.getElem?_map, h]
      have hbeq : (t.update_state == some "failed") = false := by
        rw [beq_eq_false_iff_ne]
        exact hne
      simp only [Option.map_some', hbeq, Bool.false_eq_true, if_false]
    · intro heq
      show (db.tickets.map _)[i]? = some (clearUpdaterRow t)
      rw [List.getElem?_map, h]
      have hbeq : (t.update_state == some "failed") = true := by rw [heq]; rfl
      simp only [Option.map_some', hbeq, if_true]
  · intro db i t h
    constructor
    · intro heq
      show (db.tickets.map _)[i]? = some t
      rw [List.getElem?_map, h]
      have hbeq : (t.response_status_code == some 201) = true := by rw [heq]; rfl
      simp only [Option.map_some', hbeq, if_true]
    · intro hne
      show (db.tickets.map _)[i]? = some (clearImporterRow t)
      rw [List.getElem?_map, h]
      have hbeq : (t.response_status_code == some 201) = false := by
        rw [beq_eq_false_iff_ne]
        exact hne
      simp only [Option.map_some', hbeq, Bool.false_eq_true, if_false]

/-- Helper for C10: the code's validate_category agrees with the cascade
predicate written from the amended claim. -/
theorem validateCategory_iff_cascade (db : UpdaterDb) (t : TicketRow) :
    validateCategory db t.category t.sub_category t.item_category = true ↔
      validCascadeProp db t := by
  unfold validateCategory validCascadeProp
  cases hc : pyTruthyStr t.category <;> cases hs : pyTruthyStr t.sub_category <;>
    cases hi : pyTruthyStr t.item_category <;>
      simp [List.any_eq_true, beq_iff_eq, and_assoc]

/-- Helper for C10: a hit of get_new_category is a member of
category_mappings satisfying the cascade match. -/
theorem getNewCategory_some (db : UpdaterDb) (t : TicketRow) (m : CategoryMappingRow)
    (h : getNewCategory db t.category t.sub_category t.item_category = some m) :
    m ∈ db.category_mappings ∧ mapCascadeMatch t m := by
  unfold getNewCategory at h
  unfold mapCascadeMatch
  cases hs : pyTruthyStr t.sub_category <;> cases hi : pyTruthyStr t.item_category <;>
    rw [hs, hi] at h <;>
      simp only [Bool.true_and, Bool.false_and, Bool.and_true, Bool.and_false,
        Bool.false_eq_true, if_false, if_true] at h <;>
  · refine ⟨List.mem_of_find?_eq_some h, ?_⟩
    have hp := List.find?_some h
    simp only [Bool.and_eq_true, beq_iff_eq] at hp
    dsimp only
    exact ⟨hp.1.1, hp.1.2, hp.2⟩

/-- Helper for C10: a miss of get_new_category means no mapping row satisfies
the cascade match. -/
theorem getNewCategory_none (db : UpdaterDb) (t : TicketRow)
    (h : getNewCategory db t.category t.sub_category t.item_category = none) :
    ∀ m ∈ db.category_mappings, ¬ mapCascadeMatch t m := by
  unfold getNewCategory at h
  intro m hm hmatch
  unfold mapCascadeMatch at hmatch
  cases hs : pyTruthyStr t.sub_category <;> cases hi : pyTruthyStr t.item_category <;>
    rw [hs, hi] at h hmatch <;>
      simp only [Bool.true_and, Bool.false_and, Bool.and_true, Bool.and_false,
        Bool.false_eq_true, if_false, if_true] at h hmatch <;>
  · rw [List.find?_eq_none] at h
    refine h m hm ?_
    simp only [Bool.and_eq_true, beq_iff_eq]
    exact ⟨⟨hmatch.1, hmatch.2.1⟩, hmatch.2.2⟩

/-- Claim C10 (counterexample): c10Db's ticket (A, NULL, I) is not present in
valid_categories under the claim's missing-matched-as-NULL reading (the only
valid row has item_category NULL, the ticket's item is I), it is not wholly
empty, and there are no mappings — so the claim would classify it unmapped —
yet prepare marks it skipped, because validate_category ignores a present
item_category whenever sub_category is missing. -/
theorem prepare_skips_unlisted_triple_counterexample :
    ((prepare c10Db).tickets.map (fun t => t.update_state)) = [some "skipped"] ∧
    ¬ claimTriplePresentInValid c10Db (some "A") none (some "I") ∧
    tripleAllNull (mkTicketRow 1 (some "A") none (some "I")) = false ∧
    c10Db.category_mappings = [] := by
  exact ⟨rfl, by decide, rfl, rfl⟩

/-- Claim C10 (amended): prepare classifies exactly the rows whose
update_state is NULL.  A row becomes skipped iff its triple matches
valid_categories under the truthiness cascade (NULL and empty-string
components count as missing and are matched as NULL, and a present
item_category is ignored when sub_category is missing) or all three
components are NULL; otherwise it becomes ready — with new_category,
new_sub_category, new_item_category copied from a category_mappings row
matching the analogous cascade — iff such a row exists, and unmapped when
none does. -/
theorem prepare_characterization :
    ∀ (db : UpdaterDb) (i : Nat) (t : TicketRow), db.tickets[i]? = some t →
      (t.update_state ≠ none → (prepare db).tickets[i]? = some t) ∧
      (t.update_state = none →
        (prepare db).tickets[i]? = some (classifyTicket db t) ∧
        ((classifyTicket db t).update_state = some "skipped" ↔
          validCascadeProp db t ∨
            (t.category = none ∧ t.sub_category = none ∧ t.item_category = none)) ∧
        ((classifyTicket db t).update_state = some "skipped" →
          classifyTicket db t = { t with update_state := some "skipped" }) ∧
        (¬ (validCascadeProp db t ∨
            (t.category = none ∧ t.sub_category = none ∧ t.item_category = none)) →
          ((classifyTicket db t).update_state = some "ready" ↔
            ∃ m ∈ db.category_mappings, mapCascadeMatch t m) ∧
          ((classifyTicket db t).update_state = some "ready" →
            ∃ m ∈ db.category_mappings, mapCascadeMatch t m ∧
              classifyTicket db t =
                { t with update_state := some "ready",
                         new_category := m.new_category,
                         new_sub_category := m.new_sub_category,
                         new_item_category := m.new_item_category }) ∧
          ((¬ ∃ m ∈ db.category_mappings, mapCascadeMatch t m) →
            classifyTicket db t = { t with update_state := some "unmapped" }))) := by
  intro db i t h
  have bridge : (validateCategory db t.category t.sub_category t.item_category ||
      tripleAllNull t) = true ↔
      (validCascadeProp db t ∨
        (t.category = none ∧ t.sub_category = none ∧ t.item_category = none)) := by
    rw [Bool.or_eq_true, validateCategory_iff_cascade]
    unfold tripleAllNull
    simp [Bool.and_eq_true, beq_iff_eq, and_assoc]
  constructor
  · intro hne
    show (db.tickets.map _)[i]? = some t
    rw [List.getElem?_map, h]
    have hbeq : (t.update_state == none) = false := by
      rw [beq_eq_false_iff_ne]
      exact hne
    simp only [Option.map_some', hbeq, Bool.false_eq_true, if_false]
  · intro heq
    have hbeq : (t.update_state == none) = true := by rw [heq]; rfl
    have hget : (prepare db).tickets[i]? = some (classifyTicket db t) := by
      show (db.tickets.map _)[i]? = some (classifyTicket db t)
      rw [List.getElem?_map, h]
      simp only [Option.map_some', hbeq, if_true]
    refine ⟨hget, ?_⟩
    by_cases hcond : (validateCategory db t.category t.sub_category t.item_category ||
        tripleAllNull t) = true
    · have hskip : classifyTicket db t = { t with update_state := some "skipped" } := by
        unfold classifyTicket
        rw [if_pos hcond]
      refine ⟨⟨fun _ => bridge.mp hcond, fun _ => by rw [hskip]⟩,
              fun _ => hskip, fun hn => absurd (bridge.mp hcond) hn⟩
    · have hnp : ¬ (validCascadeProp db t ∨
          (t.category = none ∧ t.sub_category = none ∧ t.item_category = none)) :=
        fun hx => hcond (bridge.mpr hx)
      cases hg : getNewCategory db t.category t.sub_category t.item_category with
      | some m =>
        have hclass : classifyTicket db t =
            { t with update_state := some "ready",
                     new_category := m.new_category,
                     new_sub_category := m.new_sub_category,
                     new_item_category := m.new_item_category } := by
          unfold classifyTicket
          rw [if_neg hcond, hg]
        obtain ⟨hmem, hmatch⟩ := getNewCategory_some db t m hg
        refine ⟨⟨fun hx => absurd hx (by rw [hclass]; simp), fun hx => absurd hx hnp⟩,
                fun hx => absurd hx (by rw [hclass]; simp), fun _ => ?_⟩
        exact ⟨Iff.intro (fun _ => ⟨m, hmem, hmatch⟩) (fun _ => by rw [hclass]),
               fun _ => ⟨m, hmem, hmatch, hclass⟩,
               fun hnex => absurd ⟨m, hmem, hmatch⟩ hnex⟩
      | none =>
        have hclass : classifyTicket db t = { t with update_state := some "unmapped" } := by
          unfold classifyTicket
          rw [if_neg hcond, hg]
        have hnone := getNewCategory_none db t hg
        refine ⟨⟨fun hx => absurd hx (by rw [hclass]; simp), fun hx => absurd hx hnp⟩,
                fun hx => absurd hx (by rw [hclass]; simp), fun _ => ?_⟩
        refine ⟨Iff.intro (fun hx => absurd hx (by rw [hclass]; simp))
                  (fun ⟨m, hm, hmm⟩ => absurd hmm (hnone m hm)), ?_, fun _ => hclass⟩
        intro hx
        exact absurd hx (by rw [hclass]; simp)

/-- Witness for the amended claim C10: prepare classifies c6Db's
NULL-state ticket in place. -/
theorem prepare_characterization_witness :
    (prepare c6Db).tickets[0]? =
      some (classifyTicket c6Db (mkTicketRow 1 (some "Old") none none)) :=
  ((prepare_characterization c6Db 0 (mkTicketRow 1 (some "Old") none none) rfl).2 rfl).1

/-- Witness for the amended claim C9: the one failed row of c9UpdaterDb is
reset, and the in-progress row of c9Db is matched and cleared by the importer
variant. -/
theorem retry_failed_characterization_witness :
    (retryFailedUpdater c9UpdaterDb).1.tickets[0]? = some
      { mkTicketRow 3 (some "X") none none with
          update_state := none, request_timestamp := none,
          response_status_code := none, error_message := none } ∧
    (retryFailedImporterStandalone c9Db).1.tickets[1]? = some (mkImporterRow 2) :=
  ⟨(retry_failed_characterization.1 c9UpdaterDb 0
      ({ mkTicketRow 3 (some "X") none none with
          update_state := some "failed", request_timestamp := some 1,
          response_status_code := some 500, error_message := some "boom" }) rfl).2 rfl,
   (retry_failed_characterization.2.2.1 c9Db 1
      ({ mkImporterRow 2 with request_timestamp := some 5 }) rfl).2 (by decide)⟩





